import Mathlib

/-!
Shallow embedding of the DiagnoSys storage-array simulator
(`src/app1.py`, `src/storage1.py`) in Lean 4, together with theorems
settling the frozen claims about its specification.

Conventions used throughout:
* JSON numeric values are modelled as `Rat` (Python floats / ints), or as
  `Int` where the Python code applies `int(...)` conversions.
* Python `dict`s keyed by id are modelled as association lists
  (`List (String × _)`); insertion order is preserved as in CPython.
* `random.randint` / `random.uniform` draws are passed in as explicit
  parameters; the drawn-range facts become hypotheses.
* Timestamp strings `"%Y-%m-%d %H:%M:%S"` compare lexicographically exactly
  as chronologically, so `created_at` is modelled as `Nat`.
-/

namespace DiagnoSys

/-- A replication target block `{"id": ..., "name": ...}` stored inside a
replication setting (`src/app1.py`, `create_settings`). -/
structure RepTarget where
  id : String
  name : String
  deriving DecidableEq, Repr

/-- One entry of a volume's `replication_settings` list, as appended by
`update_volume` (`src/app1.py` lines 279-284). -/
structure RepSetting where
  setting_id : String
  replication_type : String
  delay_sec : Int
  replication_target : RepTarget
  deriving DecidableEq, Repr

/-- A record of the `settings` collection (`src/app1.py`, `create_settings`).
Snapshot-type settings carry `value` (the snapshot frequency) and, when set,
`max_snapshots`; replication-type settings carry `replication_type`,
`delay_sec` and `replication_target`.  Absent JSON keys are `none`. -/
structure Setting where
  id : String
  system_id : String
  name : String
  type : String
  value : Option Nat := none
  max_snapshots : Option Nat := none
  replication_type : Option String := none
  delay_sec : Option Int := none
  replication_target : Option RepTarget := none
  deriving DecidableEq, Repr

/-- A record of the `volume` collection, with the fields written by
`create_volume`, `update_volume`, `export_volume` and `unexport_volume`
(`src/app1.py`, `src/storage1.py`).  `workload_size = none` models an absent
key (the key is present from creation on; `none` also covers the JSON `null`
written by `unexport_volume`). -/
structure Volume where
  id : String
  name : String
  system_id : String
  size : Int
  is_exported : Bool := false
  exported_host_id : Option String := none
  workload_size : Option Rat := some 0
  snapshot_settings : List (String × Nat) := []
  snapshot_frequencies : List Nat := []
  replication_settings : List RepSetting := []
  snapshot_count : Nat := 0
  deriving DecidableEq, Repr

/-- A record of the `snapshots` collection, as appended by the snapshot
worker (`src/storage1.py` lines 479-489). -/
structure Snapshot where
  id : String
  volume_id : String
  snapshot_setting_id : String
  created_at : Nat
  frequency : Nat
  size : Rat
  deriving DecidableEq, Repr

/-- The single record of the `system` collection
(`src/app1.py`, `create_system`). -/
structure SystemRec where
  id : String
  name : String
  max_throughput : Rat
  max_capacity : Rat
  deriving DecidableEq, Repr

/-- A record of the `host` collection (`src/app1.py`, `create_host`). -/
structure Host where
  id : String
  system_id : String
  name : String
  application_type : String
  protocol : String
  deriving DecidableEq, Repr

/-- An entry of the shared registry `global_systems.json`
(`src/storage1.py`, `add_system_to_global`). -/
structure GlobalEntry where
  id : String
  name : String
  port : Nat
  deriving DecidableEq, Repr

/-! ## System metrics (C4)

`update_system_metrics` (`src/storage1.py` lines 860-921) recomputes the
metrics singleton; `calculate_latency` (lines 819-846) derives the latency
step from the freshly computed metrics dict and the system record. -/

/-- The metrics dict written by `update_system_metrics`
(`src/storage1.py` lines 892-904). -/
structure SysMetrics where
  throughput_used : Rat
  capacity_used : Rat
  saturation : Rat
  cpu_usage : Rat
  volume_capacity : Rat
  snapshot_capacity : Rat
  capacity_percentage : Rat
  current_latency : Rat
  deriving DecidableEq, Repr

/-- `calculate_volume_throughput` (`src/storage1.py` lines 848-858):
`FIXED_IOPS * volume.get("workload_size", 4) / 1024` MB/s with
`FIXED_IOPS = 2000`. -/
def calculate_volume_throughput (v : Volume) : Rat :=
  2000 * (v.workload_size.getD 4) / 1024

/-- `calculate_latency` (`src/storage1.py` lines 819-846): derives the
latency step from the saturation and capacity-used entries of a metrics
dict and the system's `max_capacity`. -/
def calculate_latency (saturation capacity_used max_capacity : Rat) : Rat :=
  let capacity_pct : Rat := if max_capacity > 0 then capacity_used / max_capacity * 100 else 0
  let highest_pct := max saturation capacity_pct
  if highest_pct ≤ 70 then 1
  else if highest_pct ≤ 80 then 2
  else if highest_pct ≤ 90 then 3
  else if highest_pct ≤ 100 then 4
  else 5

/-- `update_system_metrics` (`src/storage1.py` lines 860-921): recomputes
throughput, capacity, saturation, cpu usage and latency from the system
record, the volume list and the snapshot list. -/
def update_system_metrics (system : SystemRec) (volumes : List Volume)
    (snapshots : List Snapshot) : SysMetrics :=
  let max_throughput_mb := system.max_throughput
  let max_capacity_gb := system.max_capacity
  let total_throughput :=
    (volumes.filter (·.is_exported)).foldl (fun acc v => acc + calculate_volume_throughput v) 0
  let volume_capacity := volumes.foldl (fun acc v => acc + (v.size : Rat)) 0
  let snapshot_capacity := snapshots.foldl (fun acc s => acc + s.size) 0
  let total_capacity := volume_capacity + snapshot_capacity
  let capacity_pct := if max_capacity_gb > 0 then total_capacity / max_capacity_gb * 100 else 0
  let saturation := if max_throughput_mb > 0 then total_throughput / max_throughput_mb * 100 else 0
  { throughput_used := total_throughput
    capacity_used := total_capacity
    saturation := saturation
    cpu_usage := min 100 saturation
    volume_capacity := volume_capacity
    snapshot_capacity := snapshot_capacity
    capacity_percentage := capacity_pct
    current_latency := calculate_latency saturation total_capacity max_capacity_gb }

/-- The latency step function `L` exactly as the spec words it (spec section
4.6): `p ≤ 70 → 1.0`, `70 < p ≤ 80 → 2.0`, `80 < p ≤ 90 → 3.0`,
`90 < p ≤ 100 → 4.0`, `p > 100 → 5.0`. -/
def specLatencyStep (p : Rat) : Rat :=
  if p ≤ 70 then 1
  else if 70 < p ∧ p ≤ 80 then 2
  else if 80 < p ∧ p ≤ 90 then 3
  else if 90 < p ∧ p ≤ 100 then 4
  else 5

/-! ## Workload generator sample (C5) -/

/-- Python's `round` (half-to-even) on a rational, to an integer. -/
def roundHalfEven (x : Rat) : Int :=
  let f := ⌊x⌋
  let r := x - f
  if r < 1/2 then f
  else if r > 1/2 then f + 1
  else if Even f then f else f + 1

/-- Python's `round(x, 2)`: round to two decimal places, ties to even. -/
def round2 (x : Rat) : Rat := (roundHalfEven (x * 100) : Rat) / 100

/-- One record of the `io_metrics` collection, as appended by the workload
worker (`src/storage1.py` lines 379-387). -/
structure IoSample where
  timestamp : Nat
  volume_id : String
  host_id : String
  io_count : Nat
  latency : Rat
  throughput : Rat
  deriving DecidableEq, Repr

/-- The fixed I/O size constant `self.IO_SIZE_KB = 8`
(`src/storage1.py` line 41); it is never reassigned. -/
def IO_SIZE_KB : Nat := 8

/-- The sample built by one iteration of the steady-state `while` loop of
`io_worker` (`src/storage1.py` lines 360-387).  `io_count` stands for the
loop's `random.randint(100, 1000)` draw and `latency_draw` for its
`random.uniform(1.0, 10.0)` draw. -/
def io_worker_sample (v : Volume) (now : Nat) (io_count : Nat)
    (latency_draw : Rat) : IoSample :=
  { timestamp := now
    volume_id := v.id
    host_id := v.exported_host_id.getD "Unknown"
    io_count := io_count
    latency := round2 latency_draw
    throughput := round2 ((io_count : Rat) * (IO_SIZE_KB : Rat) / 1024) }

/-- The pre-loop initial sample emission of `io_worker`
(`src/storage1.py` lines 327-358): when the volume exists, is exported,
and the `io_metrics` stream holds no entry for it yet, one sample is
appended whose draws come from `random.randint(800, 1200)` and
`random.uniform(1.5, 8.0)` — ranges that differ from the loop's.
`io_count` and `latency_draw` stand for those draws.  The list
normalization of lines 341-346 (flattening nested lists, dropping
non-dicts) is the identity on a well-formed metric stream, which the
`List IoSample` type already guarantees.  Returns the resulting
`io_metrics` stream. -/
def io_worker_initial (volumes : List Volume) (volume_id : String)
    (metrics : List IoSample) (now : Nat) (io_count : Nat)
    (latency_draw : Rat) : List IoSample :=
  match volumes.find? (·.id == volume_id) with
  | none => metrics
  | some volume =>
    if volume.is_exported then
      if metrics.any (·.volume_id == volume_id) then metrics
      else
        metrics ++ [{ timestamp := now
                      volume_id := volume_id
                      host_id := volume.exported_host_id.getD "Unknown"
                      io_count := io_count
                      latency := round2 latency_draw
                      throughput := round2 ((io_count : Rat) * (IO_SIZE_KB : Rat) / 1024) }]
    else metrics

/-! ## System creation (C9) -/

/-- The metrics dict as normalized by `save_metrics`
(`src/storage1.py` lines 48-66): the four required keys. -/
structure BasicMetrics where
  throughput_used : Rat
  capacity_used : Rat
  saturation : Rat
  cpu_usage : Rat
  deriving DecidableEq, Repr

/-- `save_metrics` (`src/storage1.py` lines 48-66): any required key missing
from the supplied dict is defaulted to `0` before the singleton is written. -/
def save_metrics (throughput_used capacity_used saturation cpu_usage : Option Rat) :
    BasicMetrics :=
  { throughput_used := throughput_used.getD 0
    capacity_used := capacity_used.getD 0
    saturation := saturation.getD 0
    cpu_usage := cpu_usage.getD 0 }

/-- The persisted state read and written by the `POST /system` route. -/
structure CreateSystemState where
  systems : List SystemRec
  global_systems : List GlobalEntry
  metrics : BasicMetrics
  deriving DecidableEq, Repr

/-- Result of the `POST /system` route: HTTP status plus the state left
behind. -/
structure CreateSystemResult where
  status : Nat
  systems : List SystemRec
  global_systems : List GlobalEntry
  metrics : BasicMetrics
  deriving DecidableEq, Repr

/-- `create_system` route (`src/app1.py` lines 51-82).  `new_id` stands for
the generated uuid, `port` for the instance port.  A second create is
rejected with 400; otherwise the system record is saved with defaults
`max_throughput = 200` and `max_capacity = 1024`, the shared registry gains
an entry (`add_system_to_global` skips an already-registered id), and the
metrics singleton is initialized through `save_metrics` from
`{"throughput_used": 0, "capacity_used": 0}`. -/
def create_system (st : CreateSystemState) (new_id : String) (port : Nat)
    (max_throughput max_capacity : Option Rat) : CreateSystemResult :=
  if st.systems.isEmpty then
    let system : SystemRec :=
      { id := new_id, name := toString port
        max_throughput := max_throughput.getD 200
        max_capacity := max_capacity.getD 1024 }
    { status := 201
      systems := st.systems ++ [system]
      global_systems :=
        if st.global_systems.any (·.id == new_id) then st.global_systems
        else st.global_systems ++ [{ id := new_id, name := system.name, port := port }]
      metrics := save_metrics (some 0) (some 0) none none }
  else
    { status := 400, systems := st.systems
      global_systems := st.global_systems, metrics := st.metrics }

/-! ## Replication receive endpoint (C10) -/

/-- Python's `int(...)` applied to a numeric JSON value: truncation toward
zero. -/
def pyInt (q : Rat) : Int := q.num.tdiv (q.den : Int)

/-- The `source_volume` block of a `/replication-receive` payload
(`src/storage1.py` lines 712-717). -/
structure SourceVolume where
  id : String
  name : String
  size : Int
  system_name : String
  deriving DecidableEq, Repr

/-- A receive-side replication metric record
(`src/app1.py` lines 833-842, `src/storage1.py` lines 782-791). -/
structure RecvMetric where
  throughput : Rat
  latency : Rat
  timestamp : Nat
  replication_type : String
  last_updated : Nat
  deriving DecidableEq, Repr

/-- Insert-or-replace on an association list, preserving insertion order as
a Python dict does. -/
def setKey {α : Type} (l : List (String × α)) (k : String) (v : α) :
    List (String × α) :=
  if l.any (·.1 == k) then l.map (fun p => if p.1 == k then (k, v) else p)
  else l ++ [(k, v)]

/-- `update_replication_metrics` (`src/storage1.py` lines 782-791): the
nested dict `volume_id → target_id → record`, overwritten per pair. -/
def update_replication_metrics
    (all_metrics : List (String × List (String × RecvMetric)))
    (volume_id target_id : String) (m : RecvMetric) :
    List (String × List (String × RecvMetric)) :=
  match all_metrics.find? (·.1 == volume_id) with
  | none => all_metrics ++ [(volume_id, [(target_id, m)])]
  | some p => setKey all_metrics volume_id (setKey p.2 target_id m)

/-- The persisted state read and written by `POST /replication-receive`. -/
structure ReceiveState where
  volumes : List Volume
  systems : List SystemRec
  metrics : BasicMetrics
  replication_metrics : List (String × List (String × RecvMetric))
  deriving DecidableEq, Repr

/-- A `/replication-receive` request body (`src/app1.py` lines 756-766). -/
structure ReceiveRequest where
  volume_id : String
  replication_throughput : Rat
  sender : String
  timestamp : Nat
  replication_type : String := "unknown"
  should_log : Bool := true
  latency : Rat := 0
  source_volume : Option SourceVolume := none
  deriving Repr

/-- Result of the `/replication-receive` route. -/
structure ReceiveResult where
  status : Nat
  error : Option String
  state : ReceiveState
  deriving Repr

/-- `replication_receive` route (`src/app1.py` lines 754-844).  `new_id`
stands for the uuid generated for a materialized mirror volume and `now`
for the `last_updated` wall-clock stamp.  When the payload carries a
`source_volume`, no local volume bears the mirror name, and a local system
exists, the mirror volume is materialized unless the added size would push
`capacity_used` past `max_capacity`, in which case the route returns 400
with the specific error and writes nothing.  Every non-error path ends by
overwriting the receive-side replication metric record. -/
def replication_receive (st : ReceiveState) (req : ReceiveRequest)
    (new_id : String) (now : Nat) : ReceiveResult :=
  let created : Except (Nat × String) ReceiveState :=
    match req.source_volume with
    | none => .ok st
    | some sv =>
      let target_volume_name := sv.name ++ "_" ++ req.replication_type ++ sv.system_name
      match st.volumes.find? (·.name == target_volume_name) with
      | some _ => .ok st
      | none =>
        match st.systems.head? with
        | none => .ok st
        | some local_system =>
          let current_capacity := pyInt st.metrics.capacity_used
          let new_capacity := current_capacity + sv.size
          let max_capacity := pyInt local_system.max_capacity
          if new_capacity > max_capacity then
            .error (400, "Target system capacity would be exceeded")
          else
            let new_volume : Volume :=
              { id := new_id, name := target_volume_name
                system_id := local_system.id, size := sv.size }
            .ok { st with
              metrics := save_metrics (some (pyInt st.metrics.throughput_used : Rat))
                           (some (new_capacity : Rat)) none none
              volumes := st.volumes ++ [new_volume] }
  match created with
  | .error e => { status := e.1, error := some e.2, state := st }
  | .ok st1 =>
      { status := 200, error := none
        state := { st1 with replication_metrics :=
          (update_replication_metrics st1.replication_metrics req.volume_id
            ("received_from_" ++ req.sender)
            { throughput := req.replication_throughput, latency := req.latency
              timestamp := req.timestamp, replication_type := req.replication_type
              last_updated := now }) } }

/-! ## Volume creation (C1) -/

/-- The persisted state read and written by the `POST /volume` route:
the `system` and `volume` collections and the `capacity_used` entry of the
metrics singleton (via `update_capacity_used`, `src/storage1.py`
lines 79-83). -/
structure CreateVolumeState where
  systems : List SystemRec
  volumes : List Volume
  capacity_used : Rat
  deriving DecidableEq, Repr

/-- A `POST /volume` request body.  `size = none` models a value on which
`int(data.get("size"))` raises (missing or non-integer); a field that is
JSON-missing is `none`, and Python truthiness makes the empty string count
as missing. -/
structure CreateVolumeRequest where
  system_id : Option String := none
  name : Option String := none
  size : Option Int := none
  deriving Repr

/-- Python truthiness of an optional string: `None` and `""` are falsy. -/
def truthyStr : Option String → Bool
  | none => false
  | some s => !s.isEmpty

/-- `create_volume` route (`src/app1.py` lines 146-195).  `new_id` stands
for the generated uuid.  Checks, in source order: `int(size)` parses,
required fields present, system exists, `size ≤ int(max_capacity)`.  On
success the volume record is appended and `update_capacity_used` adds the
size to the metrics singleton's `capacity_used`. -/
def create_volume (st : CreateVolumeState) (req : CreateVolumeRequest)
    (new_id : String) : Nat × CreateVolumeState :=
  match req.size with
  | none => (400, st)
  | some size =>
    if !truthyStr req.system_id || !truthyStr req.name then (400, st)
    else
      match st.systems.find? (fun s => s.id == req.system_id.getD "") with
      | none => (404, st)
      | some system =>
        let max_capacity := pyInt system.max_capacity
        if size > max_capacity then (400, st)
        else
          let volume : Volume :=
            { id := new_id, name := req.name.getD ""
              system_id := req.system_id.getD "", size := size }
          (201, { st with volumes := st.volumes ++ [volume]
                          capacity_used := st.capacity_used + (size : Rat) })

/-! ## System deletion (C2) -/

/-- The whole per-instance persisted state plus the shared registry, as
touched by `DELETE /system`. -/
structure InstanceState where
  systems : List SystemRec
  volumes : List Volume
  hosts : List Host
  settings : List Setting
  snapshots : List Snapshot
  global_systems : List GlobalEntry
  deriving DecidableEq, Repr

/-- `delete_system` route (`src/app1.py` lines 120-142).  When a system
exists it calls `delete_related_resources` (`src/storage1.py` lines
195-210, keep records whose `system_id` differs) on the `volume`,
`settings` and `host` collections, clears the `system` collection, and
removes the registry entry.  The `snapshots` collection is never touched.
Without a system, `ensure_system_exists` short-circuits with a 400 error
and no state change. -/
def delete_system (st : InstanceState) : Nat × InstanceState :=
  match st.systems.head? with
  | none => (400, st)
  | some system =>
    let sid := system.id
    (204, { st with
      volumes := st.volumes.filter (fun v => v.system_id ≠ sid)
      settings := st.settings.filter (fun s => s.system_id ≠ sid)
      hosts := st.hosts.filter (fun h => h.system_id ≠ sid)
      systems := []
      global_systems := st.global_systems.filter (fun g => g.id ≠ sid) })

/-! ## Housekeeper sweep (C3) -/

/-- `[s for s in snapshots if s.get("snapshot_setting_id") == setting_id]`
(`src/storage1.py` line 967): note the selection is by setting id alone,
not by the (volume, setting) pair. -/
def snapshots_for_setting (snaps : List Snapshot) (sid : String) : List Snapshot :=
  snaps.filter (fun s => s.snapshot_setting_id == sid)

/-- `snapshots_for_setting.sort(key=lambda x: x["created_at"])`
(`src/storage1.py` line 984): a stable sort by `created_at` ascending. -/
def sort_by_created_at (snaps : List Snapshot) : List Snapshot :=
  snaps.insertionSort (fun a b => a.created_at ≤ b.created_at)

/-- The ids of the `excess_count` oldest snapshots, which the cleanup loop
deletes one by one (`src/storage1.py` lines 987-996). -/
def excess_ids (snaps : List Snapshot) (sid : String) (max_snapshots : Nat) :
    List String :=
  ((sort_by_created_at (snapshots_for_setting snaps sid)).take
      ((snapshots_for_setting snaps sid).length - max_snapshots)).map (·.id)

/-- One pass of the inner loop of `cleanup` (`src/storage1.py` lines
958-1030) for a single `setting_id` referenced by the volume being
processed.  The state carries the current `snapshots` collection and the
in-memory volume record; `orig_count` is the `snapshot_count` read at the
top of the volume loop.  Snapshots are selected by `snapshot_setting_id`
alone, sorted by `created_at` ascending and the first `excess_count` of
them deleted by id; the volume's `snapshot_count` is clamped to
`max_snapshots`. -/
def cleanup_setting_step (settings : List Setting) (orig_count : Nat)
    (st : List Snapshot × Volume) (sid : String) : List Snapshot × Volume :=
  match settings.find? (·.id == sid) with
  | none => st
  | some setting =>
    if setting.type ≠ "snapshot" then st
    else if (snapshots_for_setting st.1 sid).length ≤ setting.max_snapshots.getD 10 then st
    else
      (st.1.filter (fun s =>
          !(excess_ids st.1 sid (setting.max_snapshots.getD 10)).contains s.id),
       { st.2 with snapshot_count := min orig_count (setting.max_snapshots.getD 10) })

/-- The volume loop body of `cleanup` (`src/storage1.py` lines 951-1030):
process every `setting_id` of the volume's `snapshot_settings` map in
order. -/
def cleanup_volume (settings : List Setting) (snaps : List Snapshot)
    (v : Volume) : List Snapshot × Volume :=
  (v.snapshot_settings.map Prod.fst).foldl
    (cleanup_setting_step settings v.snapshot_count) (snaps, v)

/-- One iteration of the volume loop of `cleanup`: thread the `snapshots`
collection and collect the written-back volume record. -/
def cleanup_fold_step (settings : List Setting)
    (acc : List Snapshot × List Volume) (v : Volume) :
    List Snapshot × List Volume :=
  let r := cleanup_volume settings acc.1 v
  (r.1, acc.2 ++ [r.2])

/-- The snapshot-trimming part of the Housekeeper sweep `cleanup`
(`src/storage1.py` lines 923-1042): fold the volume loop over the volume
list loaded at the start. -/
def cleanup (settings : List Setting) (volumes : List Volume)
    (snaps : List Snapshot) : List Snapshot × List Volume :=
  volumes.foldl (cleanup_fold_step settings) (snaps, [])

/-! ## Volume export (C7) -/

/-- `update_resource` (`src/storage1.py` lines 128-139): replace the first
record with a matching id; no-op when absent. -/
def update_resource_volume (volumes : List Volume) (vid : String)
    (updated : Volume) : List Volume :=
  match volumes.findIdx? (·.id == vid) with
  | none => volumes
  | some i => volumes.set i updated

/-- `StorageManager.export_volume` (`src/storage1.py` lines 284-320): the
persisted-state effect on the `volume` collection.  Raises (as
`Except.error` carrying the message) on an unknown volume or host and on a
volume that is already exported; otherwise marks the volume exported.  The
spawned worker threads have no immediate persisted effect. -/
def sm_export_volume (volumes : List Volume) (hosts : List Host)
    (volume_id host_id : String) (workload_size : Rat) :
    Except String (List Volume) :=
  match volumes.find? (·.id == volume_id), hosts.find? (·.id == host_id) with
  | some volume, some _host =>
    if volume.is_exported then .error "Volume is already exported"
    else .ok (update_resource_volume volumes volume_id
      { volume with is_exported := true, exported_host_id := some host_id
                    workload_size := some workload_size })
  | _, _ => .error "Invalid volume or host ID"

/-- The persisted state touched by `POST /export-volume`: the route calls
`StorageManager.export_volume` and then `cleanup`, which may also rewrite
the metrics singleton. -/
structure ExportState where
  systems : List SystemRec
  volumes : List Volume
  hosts : List Host
  settings : List Setting
  snapshots : List Snapshot
  metrics : Option SysMetrics
  deriving DecidableEq, Repr

/-- `StorageManager.cleanup` as invoked on a full instance state: skips
everything when no system exists (`src/storage1.py` lines 934-937),
otherwise trims snapshots and finishes with `update_system_metrics`. -/
def cleanup_run (st : ExportState) : ExportState :=
  match st.systems.head? with
  | none => st
  | some system =>
    let r := cleanup st.settings st.volumes st.snapshots
    { st with volumes := r.2, snapshots := r.1
              metrics := some (update_system_metrics system r.2 r.1) }

/-- `export_volume` route (`src/app1.py` lines 614-636).  Falsy
`volume_id`, `host_id` or `workload_size` (`0` included) give a 400;
any exception out of `StorageManager.export_volume` is caught and returned
as a 500 with `{"error": str(e)}`; on success the route runs `cleanup`
and returns 200. -/
def route_export_volume (st : ExportState) (volume_id host_id : String)
    (workload_size : Int) : Nat × Option String × ExportState :=
  if volume_id == "" || host_id == "" || workload_size == 0 then
    (400, some "Missing required fields", st)
  else
    match sm_export_volume st.volumes st.hosts volume_id host_id (workload_size : Rat) with
    | .error e => (500, some e, st)
    | .ok vols => (200, none, cleanup_run { st with volumes := vols })

/-! ## Volume update (C6) -/

/-- The removal phase of `update_volume` (`src/app1.py` lines 255-263):
every applied setting id not in the incoming list is dropped from both
`snapshot_settings` and `replication_settings`. -/
def removeOldSettings (v : Volume) (setting_ids : List String) : Volume :=
  { v with
    snapshot_settings := v.snapshot_settings.filter
      (fun p => setting_ids.contains p.1)
    replication_settings := v.replication_settings.filter
      (fun r => setting_ids.contains r.setting_id) }

/-- The application phase of `update_volume` for one setting id
(`src/app1.py` lines 266-284).  Snapshot settings are inserted into the
`snapshot_settings` map unless already present; replication settings are
appended to `replication_settings` unless an entry with the same
`setting_id` already exists, after validating the target block (invalid
target → 400).  A setting id that `next(...)` cannot find, or a
replication setting lacking its type or delay keys, raises and surfaces as
a 500. -/
def applySetting (settings : List Setting) (v : Volume) (sid : String) :
    Except Nat Volume :=
  match settings.find? (·.id == sid) with
  | none => .error 500
  | some setting =>
    if setting.type == "snapshot" then
      if v.snapshot_settings.any (·.1 == sid) then .ok v
      else
        match setting.value with
        | none => .error 500
        | some value =>
          .ok { v with snapshot_settings := v.snapshot_settings ++ [(sid, value)] }
    else if setting.type == "replication" then
      if v.replication_settings.any (·.setting_id == sid) then .ok v
      else
        match setting.replication_target with
        | none => .error 400
        | some target =>
          if target.id == "" then .error 400
          else
            match setting.replication_type, setting.delay_sec with
            | some rt, some ds =>
              .ok { v with replication_settings := v.replication_settings ++
                [{ setting_id := sid, replication_type := rt
                   delay_sec := ds, replication_target := target }] }
            | _, _ => .error 500
    else .ok v

/-- The `for setting_id in setting_ids` loop of `update_volume`, stopping
at the first raised error. -/
def applySettings (settings : List Setting) : Volume → List String → Except Nat Volume
  | v, [] => .ok v
  | v, sid :: rest =>
    match applySetting settings v sid with
    | .error c => .error c
    | .ok v1 => applySettings settings v1 rest

/-- `update_volume` route, settings portion (`src/app1.py` lines 211-302),
acting on the loaded volume record.  `setting_ids` are validated against
the settings collection (unknown ids → 400), the stale references are
removed, the new ones applied, and the incoming `snapshot_frequencies`
stored; only on success is the volume written back, so an error leaves the
persisted record untouched.  (The numeric `snapshot_frequencies` parse
`int(filter(isdigit, str(f)))` is the identity on numeric input and the
input is taken already parsed.) -/
def update_volume (settings : List Setting) (volume : Volume)
    (setting_ids : List String) (snapshot_frequencies : List Nat) :
    Nat × Volume :=
  if setting_ids.any (fun sid => !(settings.map (·.id)).contains sid) then (400, volume)
  else
    match applySettings settings (removeOldSettings volume setting_ids) setting_ids with
    | .error code => (code, volume)
    | .ok v2 => (200, { v2 with snapshot_frequencies := snapshot_frequencies })

/-! ## Replication worker log gating (C8) -/

/-- The `should_log` decision of `replication_worker`
(`src/storage1.py` lines 677-682): asynchronous workers always log;
synchronous workers log on the first sample (`last_log_time == 0`) and
then only when at least `SYNC_LOG_INTERVAL = 200` seconds have passed
since the last logged sample. -/
def replicationShouldLog (replication_type : String) (last_log_time now : Rat) : Bool :=
  replication_type != "synchronous" || decide (last_log_time = 0) ||
    decide (now - last_log_time ≥ 200)

/-- The per-sample log-gating state transition of `replication_worker`:
`last_log_time` is updated to the current time exactly when a log line is
emitted (`src/storage1.py` line 695). -/
def replicationLogStep (replication_type : String) (last_log_time now : Rat) :
    Bool × Rat :=
  let s := replicationShouldLog replication_type last_log_time now
  (s, if s then now else last_log_time)

/-- The subsequence of sample times at which `replication_worker` emits its
per-sample log line, starting from `last_log_time = 0`
(`src/storage1.py` line 634). -/
def loggedTimesAux (replication_type : String) (last_log_time : Rat) :
    List Rat → List Rat
  | [] => []
  | t :: ts =>
    let r := replicationLogStep replication_type last_log_time t
    if r.1 then t :: loggedTimesAux replication_type r.2 ts
    else loggedTimesAux replication_type r.2 ts

/-- Logged sample times of a whole worker run over the given sample
times. -/
def loggedTimes (replication_type : String) (sample_times : List Rat) : List Rat :=
  loggedTimesAux replication_type 0 sample_times

end DiagnoSys

namespace DiagnoSys

/-- `calculate_latency` agrees with the spec's step function applied to the
maximum of the saturation and the capacity percentage it derives. -/
theorem calculate_latency_eq_step (s c m : Rat) :
    calculate_latency s c m =
      specLatencyStep (max s (if m > 0 then c / m * 100 else 0)) := by
  unfold calculate_latency specLatencyStep
  set p := max s (if m > 0 then c / m * 100 else 0) with hp
  rcases le_or_lt p 70 with h70 | h70
  · simp [h70]
  · have n70 := not_le.mpr h70
    rcases le_or_lt p 80 with h80 | h80
    · simp [n70, h70, h80]
    · have n80 := not_le.mpr h80
      rcases le_or_lt p 90 with h90 | h90
      · simp [n70, n80, h80, h90]
      · have n90 := not_le.mpr h90
        rcases le_or_lt p 100 with h100 | h100
        · simp [n70, n80, n90, h90, h100]
        · simp [n70, n80, n90, not_le.mpr h100]

/-- C4: whenever `update_system_metrics` recomputes the metrics, the stored
`current_latency` equals `L(max(saturation, capacity_percentage))` for the
spec's step function `L`. -/
theorem current_latency_eq_step (system : SystemRec) (volumes : List Volume)
    (snapshots : List Snapshot) :
    (update_system_metrics system volumes snapshots).current_latency =
      specLatencyStep
        (max (update_system_metrics system volumes snapshots).saturation
             (update_system_metrics system volumes snapshots).capacity_percentage) := by
  unfold update_system_metrics
  dsimp only
  rw [calculate_latency_eq_step]

/-! ## C9: system-creation defaults -/

/-- C9: when the `POST /system` body omits `max_throughput` (respectively
`max_capacity`), the created system record has `max_throughput = 200`
(respectively `max_capacity = 1024`), and the initial metrics are saved
with `throughput_used = 0` and `capacity_used = 0`. -/
theorem create_system_defaults (st : CreateSystemState) (new_id : String)
    (port : Nat) (mt mc : Option Rat) (hsys : st.systems = []) :
    (create_system st new_id port mt mc).status = 201 ∧
    (mt = none →
      ∀ s ∈ (create_system st new_id port mt mc).systems, s.max_throughput = 200) ∧
    (mc = none →
      ∀ s ∈ (create_system st new_id port mt mc).systems, s.max_capacity = 1024) ∧
    (create_system st new_id port mt mc).metrics.throughput_used = 0 ∧
    (create_system st new_id port mt mc).metrics.capacity_used = 0 := by
  simp [create_system, save_metrics, hsys]
  exact ⟨fun h => by simp [h], fun h => by simp [h]⟩

/-- Witness for C9 at a concrete empty instance. -/
theorem create_system_defaults_witness :
    ({ systems := [], global_systems := []
       metrics := ⟨0, 0, 0, 0⟩ } : CreateSystemState).systems = [] ∧
    (create_system ⟨[], [], ⟨0, 0, 0, 0⟩⟩ "sys-1" 5000 none none).status = 201 ∧
    (create_system ⟨[], [], ⟨0, 0, 0, 0⟩⟩ "sys-1" 5000 none none).metrics.throughput_used = 0 ∧
    (create_system ⟨[], [], ⟨0, 0, 0, 0⟩⟩ "sys-1" 5000 none none).metrics.capacity_used = 0 :=
  ⟨rfl,
    (create_system_defaults ⟨[], [], ⟨0, 0, 0, 0⟩⟩ "sys-1" 5000 none none rfl).1,
    (create_system_defaults ⟨[], [], ⟨0, 0, 0, 0⟩⟩ "sys-1" 5000 none none rfl).2.2.2.1,
    (create_system_defaults ⟨[], [], ⟨0, 0, 0, 0⟩⟩ "sys-1" 5000 none none rfl).2.2.2.2⟩

/-! ## C10: replication-receive capacity guard -/

/-- C10: when `/replication-receive` would materialize a new mirror volume
but the local `capacity_used` plus the source volume's size exceeds the
local system's `max_capacity`, the endpoint returns 400 with the error
`"Target system capacity would be exceeded"` and the whole persisted state
(volumes, system metrics, replication metrics) is unchanged. -/
theorem replication_receive_capacity_guard (st : ReceiveState)
    (req : ReceiveRequest) (new_id : String) (now : Nat) (sv : SourceVolume)
    (local_system : SystemRec)
    (hsv : req.source_volume = some sv)
    (hname : st.volumes.find?
      (·.name == sv.name ++ "_" ++ req.replication_type ++ sv.system_name) = none)
    (hsys : st.systems.head? = some local_system)
    (hcap : pyInt st.metrics.capacity_used + sv.size > pyInt local_system.max_capacity) :
    replication_receive st req new_id now =
      { status := 400, error := some "Target system capacity would be exceeded"
        state := st } := by
  unfold replication_receive
  simp only [hsv, hname, hsys]
  simp [hcap]

/-- Witness for C10: a target with `max_capacity 10`, `capacity_used 8`,
receiving a size-5 source volume. -/
theorem replication_receive_capacity_guard_witness :
    (({ volume_id := "v1", replication_throughput := 50, sender := "data_instance_5000"
        timestamp := 7, replication_type := "asynchronous"
        source_volume := some ⟨"v1", "v1", 5, "5000"⟩ } : ReceiveRequest).source_volume =
      some (⟨"v1", "v1", 5, "5000"⟩ : SourceVolume)) ∧
    (({ volumes := [], systems := [⟨"T", "5001", 200, 10⟩], metrics := ⟨0, 8, 0, 0⟩
        replication_metrics := [] } : ReceiveState).volumes.find?
          (·.name == "v1" ++ "_" ++ "asynchronous" ++ "5000") = none) ∧
    (({ volumes := [], systems := [⟨"T", "5001", 200, 10⟩], metrics := ⟨0, 8, 0, 0⟩
        replication_metrics := [] } : ReceiveState).systems.head? =
      some (⟨"T", "5001", 200, 10⟩ : SystemRec)) ∧
    (pyInt (8 : Rat) + 5 > pyInt (10 : Rat)) ∧
    replication_receive
        ⟨[], [⟨"T", "5001", 200, 10⟩], ⟨0, 8, 0, 0⟩, []⟩
        { volume_id := "v1", replication_throughput := 50, sender := "data_instance_5000"
          timestamp := 7, replication_type := "asynchronous"
          source_volume := some ⟨"v1", "v1", 5, "5000"⟩ } "new-uuid" 9 =
      { status := 400, error := some "Target system capacity would be exceeded"
        state := ⟨[], [⟨"T", "5001", 200, 10⟩], ⟨0, 8, 0, 0⟩, []⟩ } :=
  ⟨rfl, rfl, rfl, by decide,
    replication_receive_capacity_guard
      ⟨[], [⟨"T", "5001", 200, 10⟩], ⟨0, 8, 0, 0⟩, []⟩
      { volume_id := "v1", replication_throughput := 50, sender := "data_instance_5000"
        timestamp := 7, replication_type := "asynchronous"
        source_volume := some ⟨"v1", "v1", 5, "5000"⟩ } "new-uuid" 9
      ⟨"v1", "v1", 5, "5000"⟩ ⟨"T", "5001", 200, 10⟩ rfl rfl rfl (by decide)⟩

/-! ## C5: workload I/O samples -/

/-- C5 counterexample, refuting the claim on two points.  First, on a
volume whose `workload_size` is present (64 KB), the loop sample's
throughput is still `round(1024 × 8 / 1024, 2) = 8` MB/s and not the
`1024 × 64 / 1024 = 64` MB/s the claim requires, so `workload_size` does
not override the I/O size.  Second, the worker's pre-loop initial
emission — reachable whenever the exported volume has no `io_metrics`
entry yet — draws from `randint(800, 1200)`, so a sample with
`iops = 1152 ∉ [100, 1000]` is emitted, contradicting the claimed
uniform-[100, 1000] range for every sample. -/
theorem io_sample_ignores_workload_size :
    (({ id := "v1", name := "v1", system_id := "S", size := 10, is_exported := true
        exported_host_id := some "h1", workload_size := some 64 } : Volume).workload_size
      = some 64) ∧
    (io_worker_sample
        { id := "v1", name := "v1", system_id := "S", size := 10, is_exported := true
          exported_host_id := some "h1", workload_size := some 64 } 0 1024 2).throughput = 8 ∧
    round2 ((1024 : Rat) * 64 / 1024) = 64 ∧
    ((8 : Rat) ≠ 64) ∧
    ((io_worker_initial
        [{ id := "v1", name := "v1", system_id := "S", size := 10, is_exported := true
           exported_host_id := some "h1", workload_size := some 64 }]
        "v1" [] 0 1152 2).map (·.io_count) = [1152]) ∧
    ¬ ((1152 : Nat) ≤ 1000) := by
  refine ⟨rfl, ?_, ?_, by norm_num, by decide, by decide⟩
  · simp only [io_worker_sample]
    norm_num [round2, roundHalfEven, IO_SIZE_KB]
  · norm_num [round2, roundHalfEven]

/-- C5 (amended): every I/O sample emitted by the workload worker carries
`throughput = round(iops × IO_SIZE_KB / 1024, 2)` with the fixed
`IO_SIZE_KB = 8` and the volume's `workload_size` has no effect.  The
steady-state loop samples carry `iops = random.randint(100, 1000)` and
`latency = round(uniform(1.0, 10.0), 2)`; in addition, when the exported
volume has no `io_metrics` entry yet, the worker first emits one initial
sample whose draws come from `randint(800, 1200)` and
`uniform(1.5, 8.0)` instead, and this initial emission happens at most
once per volume (a stream already holding the volume's entry is returned
unchanged). -/
theorem io_sample_fields (v : Volume) (now io_count : Nat) (latency_draw : Rat)
    (w : Option Rat) (volumes : List Volume) (volume_id : String)
    (metrics : List IoSample) (vol : Volume)
    (hfind : volumes.find? (·.id == volume_id) = some vol)
    (hexp : vol.is_exported = true)
    (habs : metrics.any (·.volume_id == volume_id) = false) :
    IO_SIZE_KB = 8 ∧
    (io_worker_sample v now io_count latency_draw).io_count = io_count ∧
    (io_worker_sample v now io_count latency_draw).latency = round2 latency_draw ∧
    (io_worker_sample v now io_count latency_draw).throughput =
      round2 ((io_count : Rat) * (IO_SIZE_KB : Rat) / 1024) ∧
    io_worker_sample { v with workload_size := w } now io_count latency_draw =
      io_worker_sample v now io_count latency_draw ∧
    io_worker_initial volumes volume_id metrics now io_count latency_draw =
      metrics ++ [{ timestamp := now, volume_id := volume_id,
                    host_id := vol.exported_host_id.getD "Unknown",
                    io_count := io_count, latency := round2 latency_draw,
                    throughput := round2 ((io_count : Rat) * (IO_SIZE_KB : Rat) / 1024) }] ∧
    (∀ (now2 io2 : Nat) (lat2 : Rat),
      io_worker_initial volumes volume_id
          (io_worker_initial volumes volume_id metrics now io_count latency_draw)
          now2 io2 lat2 =
        io_worker_initial volumes volume_id metrics now io_count latency_draw) := by
  have hinit : io_worker_initial volumes volume_id metrics now io_count latency_draw =
      metrics ++ [{ timestamp := now, volume_id := volume_id,
                    host_id := vol.exported_host_id.getD "Unknown",
                    io_count := io_count, latency := round2 latency_draw,
                    throughput := round2 ((io_count : Rat) * (IO_SIZE_KB : Rat) / 1024) }] := by
    unfold io_worker_initial
    simp only [hfind]
    simp [hexp, habs]
  refine ⟨rfl, rfl, rfl, rfl, rfl, hinit, ?_⟩
  intro now2 io2 lat2
  rw [hinit]
  unfold io_worker_initial
  simp only [hfind]
  simp [hexp, List.any_append]

/-- Witness for C5 (amended): a fresh exported volume with an empty metric
stream receives exactly the initial sample. -/
theorem io_sample_fields_witness :
    (([{ id := "v1", name := "v1", system_id := "S", size := 10, is_exported := true
         exported_host_id := some "h1" }] : List Volume).find? (·.id == "v1") =
      some { id := "v1", name := "v1", system_id := "S", size := 10, is_exported := true
             exported_host_id := some "h1" }) ∧
    ({ id := "v1", name := "v1", system_id := "S", size := 10, is_exported := true
       exported_host_id := some "h1" } : Volume).is_exported = true ∧
    ([] : List IoSample).any (·.volume_id == "v1") = false ∧
    io_worker_initial
        [{ id := "v1", name := "v1", system_id := "S", size := 10, is_exported := true
           exported_host_id := some "h1" }]
        "v1" [] 0 500 2 =
      [] ++ [{ timestamp := 0, volume_id := "v1", host_id := "h1",
               io_count := 500, latency := round2 2,
               throughput := round2 ((500 : Rat) * (IO_SIZE_KB : Rat) / 1024) }] :=
  ⟨rfl, rfl, rfl,
    (io_sample_fields
      { id := "v1", name := "v1", system_id := "S", size := 10, is_exported := true
        exported_host_id := some "h1" }
      0 500 2 (some 64)
      [{ id := "v1", name := "v1", system_id := "S", size := 10, is_exported := true
         exported_host_id := some "h1" }]
      "v1" []
      { id := "v1", name := "v1", system_id := "S", size := 10, is_exported := true
        exported_host_id := some "h1" }
      rfl rfl rfl).2.2.2.2.2.1⟩

/-! ## C1: volume creation and the capacity budget -/

/-- C1 counterexample: on a system with `max_capacity 10`, creating `v1` of
size 6 and then `v2` of size 5 succeeds twice (both 201, both volumes
persisted, `capacity_used = 11 > 10`); the code never compares
`capacity_used + size` against `max_capacity`, so the second request is not
rejected. -/
theorem create_volume_capacity_counterexample :
    (create_volume
        { systems := [⟨"S", "5000", 200, 10⟩], volumes := [], capacity_used := 0 }
        { system_id := some "S", name := some "v1", size := some 6 } "V1").1 = 201 ∧
    (create_volume
      (create_volume
          { systems := [⟨"S", "5000", 200, 10⟩], volumes := [], capacity_used := 0 }
          { system_id := some "S", name := some "v1", size := some 6 } "V1").2
      { system_id := some "S", name := some "v2", size := some 5 } "V2").1 = 201 ∧
    (create_volume
      (create_volume
          { systems := [⟨"S", "5000", 200, 10⟩], volumes := [], capacity_used := 0 }
          { system_id := some "S", name := some "v1", size := some 6 } "V1").2
      { system_id := some "S", name := some "v2", size := some 5 } "V2").2.volumes.length = 2 ∧
    (create_volume
      (create_volume
          { systems := [⟨"S", "5000", 200, 10⟩], volumes := [], capacity_used := 0 }
          { system_id := some "S", name := some "v1", size := some 6 } "V1").2
      { system_id := some "S", name := some "v2", size := some 5 } "V2").2.capacity_used = 11 ∧
    ¬ ((11 : Rat) ≤ 10) := by
  refine ⟨by decide, by decide, by decide, ?_, by norm_num⟩
  simp +decide only [create_volume, truthyStr, pyInt]
  norm_num

/-- C1 (amended): a volume is created (201) exactly when the size parses as
an integer, the required fields are present, the system exists, and
`size ≤ max_capacity`; on success the volume is appended and
`capacity_used` increases by `size`.  The cumulative condition
`capacity_used + size ≤ max_capacity` is never checked. -/
theorem create_volume_success (st : CreateVolumeState) (req : CreateVolumeRequest)
    (new_id : String) (size : Int) (system : SystemRec)
    (hsize : req.size = some size)
    (hsid : truthyStr req.system_id = true)
    (hname : truthyStr req.name = true)
    (hfind : st.systems.find? (fun s => s.id == req.system_id.getD "") = some system)
    (hcap : size ≤ pyInt system.max_capacity) :
    create_volume st req new_id =
      (201, { st with
          volumes := st.volumes ++
            [{ id := new_id, name := req.name.getD "",
               system_id := req.system_id.getD "", size := size }],
          capacity_used := st.capacity_used + (size : Rat) }) := by
  unfold create_volume
  simp only [hsize, hsid, hname, hfind]
  simp [not_lt.mpr hcap]

/-- Witness for C1 (amended) at the counterexample's second request: the
size-5 volume is accepted on the system whose remaining capacity is 4. -/
theorem create_volume_success_witness :
    (({ system_id := some "S", name := some "v2", size := some 5 } :
        CreateVolumeRequest).size = some 5) ∧
    truthyStr (some "S") = true ∧
    truthyStr (some "v2") = true ∧
    (({ systems := [⟨"S", "5000", 200, 10⟩]
        volumes := [{ id := "V1", name := "v1", system_id := "S", size := 6 }]
        capacity_used := 6 } : CreateVolumeState).systems.find?
          (fun s => s.id ==
            ({ system_id := some "S", name := some "v2", size := some 5 } :
              CreateVolumeRequest).system_id.getD "") =
      some (⟨"S", "5000", 200, 10⟩ : SystemRec)) ∧
    ((5 : Int) ≤ pyInt (10 : Rat)) ∧
    create_volume
        { systems := [⟨"S", "5000", 200, 10⟩]
          volumes := [{ id := "V1", name := "v1", system_id := "S", size := 6 }]
          capacity_used := 6 }
        { system_id := some "S", name := some "v2", size := some 5 } "V2" =
      (201, { systems := [⟨"S", "5000", 200, 10⟩]
              volumes := [{ id := "V1", name := "v1", system_id := "S", size := 6 },
                          { id := "V2", name := "v2", system_id := "S", size := 5 }]
              capacity_used := (6 : Rat) + ((5 : Int) : Rat) }) :=
  ⟨rfl, rfl, rfl, by decide, by decide,
    create_volume_success
      { systems := [⟨"S", "5000", 200, 10⟩]
        volumes := [{ id := "V1", name := "v1", system_id := "S", size := 6 }]
        capacity_used := 6 }
      { system_id := some "S", name := some "v2", size := some 5 } "V2" 5
      ⟨"S", "5000", 200, 10⟩ rfl rfl rfl (by decide) (by decide)⟩

/-! ## C2: system deletion cascade -/

/-- C2 counterexample: deleting the system removes its volume but the
snapshot belonging to that volume survives in the `snapshots` collection —
`delete_system` never touches it. -/
theorem delete_system_keeps_snapshots :
    (delete_system
        { systems := [⟨"S", "5000", 200, 1024⟩]
          volumes := [{ id := "V", name := "v1", system_id := "S", size := 5 }]
          hosts := [], settings := []
          snapshots := [{ id := "P", volume_id := "V", snapshot_setting_id := "s1",
                          created_at := 1, frequency := 5, size := 5 }]
          global_systems := [⟨"S", "5000", 5000⟩] }).1 = 204 ∧
    (delete_system
        { systems := [⟨"S", "5000", 200, 1024⟩]
          volumes := [{ id := "V", name := "v1", system_id := "S", size := 5 }]
          hosts := [], settings := []
          snapshots := [{ id := "P", volume_id := "V", snapshot_setting_id := "s1",
                          created_at := 1, frequency := 5, size := 5 }]
          global_systems := [⟨"S", "5000", 5000⟩] }).2.volumes = [] ∧
    (delete_system
        { systems := [⟨"S", "5000", 200, 1024⟩]
          volumes := [{ id := "V", name := "v1", system_id := "S", size := 5 }]
          hosts := [], settings := []
          snapshots := [{ id := "P", volume_id := "V", snapshot_setting_id := "s1",
                          created_at := 1, frequency := 5, size := 5 }]
          global_systems := [⟨"S", "5000", 5000⟩] }).2.snapshots =
      [{ id := "P", volume_id := "V", snapshot_setting_id := "s1",
         created_at := 1, frequency := 5, size := 5 }] := by
  refine ⟨by decide, by decide, by decide⟩

/-- C2 (amended): `delete_system` on an existing system removes every
volume, host and setting carrying that system's id and the shared-registry
entry, and clears the system record, but leaves the `snapshots` collection
untouched; a second `delete_system` returns 400 and changes nothing. -/
theorem delete_system_cascade (st : InstanceState) (system : SystemRec)
    (hsys : st.systems.head? = some system) :
    (delete_system st).1 = 204 ∧
    (∀ v ∈ (delete_system st).2.volumes, v.system_id ≠ system.id) ∧
    (∀ v ∈ st.volumes, v.system_id ≠ system.id → v ∈ (delete_system st).2.volumes) ∧
    (∀ h ∈ (delete_system st).2.hosts, h.system_id ≠ system.id) ∧
    (∀ s ∈ (delete_system st).2.settings, s.system_id ≠ system.id) ∧
    (delete_system st).2.systems = [] ∧
    (∀ g ∈ (delete_system st).2.global_systems, g.id ≠ system.id) ∧
    (delete_system st).2.snapshots = st.snapshots ∧
    delete_system (delete_system st).2 = (400, (delete_system st).2) := by
  refine ⟨?_, ?_, ?_, ?_, ?_, ?_, ?_, ?_, ?_⟩ <;>
    (simp [delete_system, hsys]; try (intros; simp_all))

/-- Witness for C2 at the counterexample state. -/
theorem delete_system_cascade_witness :
    (({ systems := [⟨"S", "5000", 200, 1024⟩]
        volumes := [{ id := "V", name := "v1", system_id := "S", size := 5 }]
        hosts := [], settings := []
        snapshots := [{ id := "P", volume_id := "V", snapshot_setting_id := "s1",
                        created_at := 1, frequency := 5, size := 5 }]
        global_systems := [⟨"S", "5000", 5000⟩] } : InstanceState).systems.head? =
      some (⟨"S", "5000", 200, 1024⟩ : SystemRec)) ∧
    ((delete_system
        { systems := [⟨"S", "5000", 200, 1024⟩]
          volumes := [{ id := "V", name := "v1", system_id := "S", size := 5 }]
          hosts := [], settings := []
          snapshots := [{ id := "P", volume_id := "V", snapshot_setting_id := "s1",
                          created_at := 1, frequency := 5, size := 5 }]
          global_systems := [⟨"S", "5000", 5000⟩] }).2.snapshots =
      [{ id := "P", volume_id := "V", snapshot_setting_id := "s1",
         created_at := 1, frequency := 5, size := 5 }]) ∧
    delete_system
        (delete_system
          { systems := [⟨"S", "5000", 200, 1024⟩]
            volumes := [{ id := "V", name := "v1", system_id := "S", size := 5 }]
            hosts := [], settings := []
            snapshots := [{ id := "P", volume_id := "V", snapshot_setting_id := "s1",
                            created_at := 1, frequency := 5, size := 5 }]
            global_systems := [⟨"S", "5000", 5000⟩] }).2 =
      (400, (delete_system
        { systems := [⟨"S", "5000", 200, 1024⟩]
          volumes := [{ id := "V", name := "v1", system_id := "S", size := 5 }]
          hosts := [], settings := []
          snapshots := [{ id := "P", volume_id := "V", snapshot_setting_id := "s1",
                          created_at := 1, frequency := 5, size := 5 }]
          global_systems := [⟨"S", "5000", 5000⟩] }).2) := by
  refine ⟨rfl, ?_, ?_⟩
  · exact (delete_system_cascade
      { systems := [⟨"S", "5000", 200, 1024⟩]
        volumes := [{ id := "V", name := "v1", system_id := "S", size := 5 }]
        hosts := [], settings := []
        snapshots := [{ id := "P", volume_id := "V", snapshot_setting_id := "s1",
                        created_at := 1, frequency := 5, size := 5 }]
        global_systems := [⟨"S", "5000", 5000⟩] }
      ⟨"S", "5000", 200, 1024⟩ rfl).2.2.2.2.2.2.2.1
  · exact (delete_system_cascade
      { systems := [⟨"S", "5000", 200, 1024⟩]
        volumes := [{ id := "V", name := "v1", system_id := "S", size := 5 }]
        hosts := [], settings := []
        snapshots := [{ id := "P", volume_id := "V", snapshot_setting_id := "s1",
                        created_at := 1, frequency := 5, size := 5 }]
        global_systems := [⟨"S", "5000", 5000⟩] }
      ⟨"S", "5000", 200, 1024⟩ rfl).2.2.2.2.2.2.2.2

/-! ## C7: exporting an already-exported volume -/

/-- C7 counterexample: `POST /export-volume` on an already-exported volume
returns HTTP 500, not 400 — the `ValueError("Volume is already exported")`
raised by `StorageManager.export_volume` is caught by the route's blanket
handler, which answers `jsonify({"error": str(e)}), 500`.  The state is
unchanged. -/
theorem export_volume_already_exported_counterexample :
    (route_export_volume
        { systems := [⟨"S", "5000", 200, 1024⟩]
          volumes := [{ id := "V", name := "v1", system_id := "S", size := 10
                        is_exported := true, exported_host_id := some "H"
                        workload_size := some 8 }]
          hosts := [⟨"H", "S", "h1", "db", "iscsi"⟩]
          settings := [], snapshots := [], metrics := none }
        "V" "H" 8).1 = 500 ∧
    ((500 : Nat) ≠ 400) ∧
    (route_export_volume
        { systems := [⟨"S", "5000", 200, 1024⟩]
          volumes := [{ id := "V", name := "v1", system_id := "S", size := 10
                        is_exported := true, exported_host_id := some "H"
                        workload_size := some 8 }]
          hosts := [⟨"H", "S", "h1", "db", "iscsi"⟩]
          settings := [], snapshots := [], metrics := none }
        "V" "H" 8).2.1 = some "Volume is already exported" ∧
    (route_export_volume
        { systems := [⟨"S", "5000", 200, 1024⟩]
          volumes := [{ id := "V", name := "v1", system_id := "S", size := 10
                        is_exported := true, exported_host_id := some "H"
                        workload_size := some 8 }]
          hosts := [⟨"H", "S", "h1", "db", "iscsi"⟩]
          settings := [], snapshots := [], metrics := none }
        "V" "H" 8).2.2 =
      { systems := [⟨"S", "5000", 200, 1024⟩]
        volumes := [{ id := "V", name := "v1", system_id := "S", size := 10
                      is_exported := true, exported_host_id := some "H"
                      workload_size := some 8 }]
        hosts := [⟨"H", "S", "h1", "db", "iscsi"⟩]
        settings := [], snapshots := [], metrics := none } := by
  exact ⟨by decide, by decide, by decide, by decide⟩

/-- C7 (amended): `POST /export-volume` on a volume that is already
exported fails with HTTP status 500 and the JSON body
`{"error": "Volume is already exported"}`, and the volume's persisted
state is unchanged by the failed request. -/
theorem export_volume_already_exported (st : ExportState) (vid hid : String)
    (ws : Int) (v : Volume)
    (hvid : vid ≠ "") (hhid : hid ≠ "") (hws : ws ≠ 0)
    (hv : st.volumes.find? (·.id == vid) = some v)
    (hexp : v.is_exported = true)
    (hh : (st.hosts.find? (·.id == hid)).isSome = true) :
    route_export_volume st vid hid ws = (500, some "Volume is already exported", st) := by
  obtain ⟨h, hh⟩ := Option.isSome_iff_exists.mp hh
  unfold route_export_volume sm_export_volume
  simp only [hv, hh, hexp]
  simp [hvid, hhid, hws]

/-- Witness for C7 at the counterexample state. -/
theorem export_volume_already_exported_witness :
    ("V" ≠ "") ∧ ("H" ≠ "") ∧ ((8 : Int) ≠ 0) ∧
    (({ systems := [⟨"S", "5000", 200, 1024⟩]
        volumes := [{ id := "V", name := "v1", system_id := "S", size := 10
                      is_exported := true, exported_host_id := some "H"
                      workload_size := some 8 }]
        hosts := [⟨"H", "S", "h1", "db", "iscsi"⟩]
        settings := [], snapshots := [], metrics := none } : ExportState).volumes.find?
          (·.id == "V") =
      some { id := "V", name := "v1", system_id := "S", size := 10
             is_exported := true, exported_host_id := some "H"
             workload_size := some 8 }) ∧
    route_export_volume
        { systems := [⟨"S", "5000", 200, 1024⟩]
          volumes := [{ id := "V", name := "v1", system_id := "S", size := 10
                        is_exported := true, exported_host_id := some "H"
                        workload_size := some 8 }]
          hosts := [⟨"H", "S", "h1", "db", "iscsi"⟩]
          settings := [], snapshots := [], metrics := none }
        "V" "H" 8 =
      (500, some "Volume is already exported",
        { systems := [⟨"S", "5000", 200, 1024⟩]
          volumes := [{ id := "V", name := "v1", system_id := "S", size := 10
                        is_exported := true, exported_host_id := some "H"
                        workload_size := some 8 }]
          hosts := [⟨"H", "S", "h1", "db", "iscsi"⟩]
          settings := [], snapshots := [], metrics := none }) :=
  ⟨by decide, by decide, by decide, by decide,
    export_volume_already_exported
      { systems := [⟨"S", "5000", 200, 1024⟩]
        volumes := [{ id := "V", name := "v1", system_id := "S", size := 10
                      is_exported := true, exported_host_id := some "H"
                      workload_size := some 8 }]
        hosts := [⟨"H", "S", "h1", "db", "iscsi"⟩]
        settings := [], snapshots := [], metrics := none }
      "V" "H" 8
      { id := "V", name := "v1", system_id := "S", size := 10
        is_exported := true, exported_host_id := some "H", workload_size := some 8 }
      (by decide) (by decide) (by decide) (by decide) rfl (by decide)⟩

/-! ## C8: replication log gating -/

/-- For a synchronous worker whose last logged sample happened at a
positive time `last`, the logged-sample times keep gaps of at least 200
seconds, starting with the gap from `last`. -/
theorem loggedTimesAux_sync_chain (ts : List Rat) : ∀ last : Rat, 0 < last →
    (∀ t ∈ ts, 0 < t) →
    List.Chain' (fun a b => 200 ≤ b - a)
      (last :: loggedTimesAux "synchronous" last ts) := by
  induction ts with
  | nil => intro last _ _; simp [loggedTimesAux]
  | cons t ts ih =>
    intro last hlast hts
    have hne : decide (last = 0) = false := decide_eq_false hlast.ne'
    by_cases h200 : 200 ≤ t - last
    · have hlog : replicationShouldLog "synchronous" last t = true := by
        simp [replicationShouldLog, h200]
      have he : loggedTimesAux "synchronous" last (t :: ts) =
          t :: loggedTimesAux "synchronous" t ts := by
        simp [loggedTimesAux, replicationLogStep, hlog]
      rw [he, List.chain'_cons]
      exact ⟨h200, ih t (hts t (by simp)) (fun x hx => hts x (by simp [hx]))⟩
    · have hlog : replicationShouldLog "synchronous" last t = false := by
        simp [replicationShouldLog, hne, h200]
      have he : loggedTimesAux "synchronous" last (t :: ts) =
          loggedTimesAux "synchronous" last ts := by
        simp [loggedTimesAux, replicationLogStep, hlog]
      rw [he]
      exact ih last hlast (fun x hx => hts x (by simp [hx]))

/-- A worker whose `replication_type` is not `"synchronous"` logs every
sample, whatever `last_log_time` it starts from. -/
theorem loggedTimesAux_async (rt : String) (hrt : rt ≠ "synchronous") :
    ∀ (ts : List Rat) (last : Rat), loggedTimesAux rt last ts = ts := by
  intro ts
  induction ts with
  | nil => intro last; rfl
  | cons t ts ih =>
    intro last
    have hlog : replicationShouldLog rt last t = true := by
      simp [replicationShouldLog, bne_iff_ne, hrt]
    simp [loggedTimesAux, replicationLogStep, hlog, ih]

/-- C8: over any run of sample times (wall-clock times, hence positive), a
synchronous replication worker logs its first sample and then never logs
again until at least 200 seconds have elapsed since the previously logged
sample, while an asynchronous (non-synchronous) worker logs every
sample. -/
theorem replication_log_gating (ts : List Rat) (rt : String)
    (hts : ∀ t ∈ ts, 0 < t) (hrt : rt ≠ "synchronous") :
    List.Chain' (fun a b => 200 ≤ b - a) (loggedTimes "synchronous" ts) ∧
    loggedTimes rt ts = ts := by
  constructor
  · cases ts with
    | nil => simp [loggedTimes, loggedTimesAux]
    | cons t ts2 =>
      have hlog : replicationShouldLog "synchronous" 0 t = true := by
        simp [replicationShouldLog]
      have he : loggedTimes "synchronous" (t :: ts2) =
          t :: loggedTimesAux "synchronous" t ts2 := by
        simp [loggedTimes, loggedTimesAux, replicationLogStep, hlog]
      rw [he]
      exact loggedTimesAux_sync_chain ts2 t (hts t (by simp))
        (fun x hx => hts x (by simp [hx]))
  · exact loggedTimesAux_async rt hrt ts 0

/-- Witness for C8 on the sample times 1, 150, 350, 360: the synchronous
worker logs at 1 and 350 only (gap 349 ≥ 200) and the asynchronous worker
logs all four samples. -/
theorem replication_log_gating_witness :
    List.Chain' (fun a b => 200 ≤ b - a)
      (loggedTimes "synchronous" [1, 150, 350, 360]) ∧
    loggedTimes "asynchronous" [1, 150, 350, 360] = [1, 150, 350, 360] :=
  replication_log_gating [1, 150, 350, 360] "asynchronous"
    (by intro t ht; fin_cases ht <;> norm_num) (by decide)

/-! ## C3: housekeeper snapshot retention -/

/-- Each inner cleanup pass only removes snapshots. -/
theorem cleanup_setting_step_fst_sublist (settings : List Setting) (oc : Nat)
    (st : List Snapshot × Volume) (sid : String) :
    (cleanup_setting_step settings oc st sid).1.Sublist st.1 := by
  unfold cleanup_setting_step
  split
  · exact List.Sublist.refl _
  · split_ifs with h1 h2
    · exact List.Sublist.refl _
    · exact List.Sublist.refl _
    · exact List.filter_sublist _

/-- The settings loop of one volume only removes snapshots. -/
theorem cleanup_settings_fold_fst_sublist (settings : List Setting) (oc : Nat)
    (ids : List String) : ∀ st : List Snapshot × Volume,
    ((ids.foldl (cleanup_setting_step settings oc) st).1).Sublist st.1 := by
  induction ids with
  | nil => intro st; exact List.Sublist.refl _
  | cons a l ih =>
    intro st
    rw [List.foldl_cons]
    exact (ih (cleanup_setting_step settings oc st a)).trans
      (cleanup_setting_step_fst_sublist settings oc st a)

/-- Processing one volume only removes snapshots. -/
theorem cleanup_volume_fst_sublist (settings : List Setting)
    (snaps : List Snapshot) (v : Volume) :
    (cleanup_volume settings snaps v).1.Sublist snaps :=
  cleanup_settings_fold_fst_sublist settings v.snapshot_count
    (v.snapshot_settings.map Prod.fst) (snaps, v)

/-- The whole sweep only removes snapshots. -/
theorem cleanup_fold_fst_sublist (settings : List Setting) (vols : List Volume) :
    ∀ acc : List Snapshot × List Volume,
    ((vols.foldl (cleanup_fold_step settings) acc).1).Sublist acc.1 := by
  induction vols with
  | nil => intro acc; exact List.Sublist.refl _
  | cons a l ih =>
    intro acc
    rw [List.foldl_cons]
    exact (ih (cleanup_fold_step settings acc a)).trans
      (cleanup_volume_fst_sublist settings acc.1 a)

/-- After one inner cleanup pass for `sid` whose setting is a snapshot
setting, at most `max_snapshots` snapshots with that setting id remain. -/
theorem cleanup_setting_step_count_le (settings : List Setting) (oc : Nat)
    (st : List Snapshot × Volume) (sid : String) (setting : Setting)
    (hfind : settings.find? (·.id == sid) = some setting)
    (htype : setting.type = "snapshot") :
    (snapshots_for_setting (cleanup_setting_step settings oc st sid).1 sid).length ≤
      setting.max_snapshots.getD 10 := by
  unfold cleanup_setting_step
  simp only [hfind]
  rw [if_neg (by simp [htype])]
  by_cases hn : (snapshots_for_setting st.1 sid).length ≤ setting.max_snapshots.getD 10
  · rw [if_pos hn]
    exact hn
  · rw [if_neg hn]
    push_neg at hn
    set maxs := setting.max_snapshots.getD 10 with hmaxs
    set F := snapshots_for_setting st.1 sid with hF
    set k := F.length - maxs with hk
    set P : Snapshot → Bool :=
      (fun s => !(excess_ids st.1 sid maxs).contains s.id) with hP
    have hcomm : snapshots_for_setting (st.1.filter P) sid = (F.filter P) := by
      rw [hF]
      unfold snapshots_for_setting
      exact List.filter_comm _ _ _
    rw [hcomm]
    have hperm : (sort_by_created_at F).Perm F := List.perm_insertionSort _ F
    have hlen1 : (F.filter P).length = ((sort_by_created_at F).filter P).length :=
      ((hperm.filter P).length_eq).symm
    have hsplit : (sort_by_created_at F).filter P =
        ((sort_by_created_at F).take k).filter P ++
          ((sort_by_created_at F).drop k).filter P := by
      rw [← List.filter_append, List.take_append_drop]
    have htake : ((sort_by_created_at F).take k).filter P = [] := by
      refine List.filter_eq_nil_iff.mpr ?_
      intro a ha
      have hid : a.id ∈ excess_ids st.1 sid maxs := by
        unfold excess_ids
        rw [← hF, ← hk]
        exact List.mem_map_of_mem (·.id) ha
      simp [hP, hid]
    have hdrop : (((sort_by_created_at F).drop k).filter P).length ≤
        (sort_by_created_at F).length - k :=
      le_trans (List.filter_sublist _).length_le (le_of_eq (List.length_drop k _))
    have hslen : (sort_by_created_at F).length = F.length := hperm.length_eq
    rw [hlen1, hsplit]
    rw [List.length_append, htake]
    simp only [List.length_nil]
    omega

/-- If `sid` occurs in the processed id list and resolves to a snapshot
setting, the settings loop leaves at most `max_snapshots` snapshots with
that setting id, from any starting state. -/
theorem cleanup_settings_fold_count_le (settings : List Setting) (oc : Nat)
    (sid : String) (setting : Setting)
    (hfind : settings.find? (·.id == sid) = some setting)
    (htype : setting.type = "snapshot") :
    ∀ ids : List String, sid ∈ ids → ∀ st : List Snapshot × Volume,
    (snapshots_for_setting
        ((ids.foldl (cleanup_setting_step settings oc) st).1) sid).length ≤
      setting.max_snapshots.getD 10 := by
  intro ids
  induction ids with
  | nil => intro h; cases h
  | cons a l ih =>
    intro hmem st
    rw [List.foldl_cons]
    by_cases hl : sid ∈ l
    · exact ih hl _
    · have ha : sid = a := by
        rcases List.mem_cons.mp hmem with h | h
        · exact h
        · exact absurd h hl
      subst ha
      have hstep := cleanup_setting_step_count_le settings oc st sid setting hfind htype
      have hsub := cleanup_settings_fold_fst_sublist settings oc l
        (cleanup_setting_step settings oc st sid)
      exact le_trans (hsub.filter _).length_le hstep

/-- Processing a volume that references `sid` among its snapshot settings
bounds the per-setting snapshot population by `max_snapshots`. -/
theorem cleanup_volume_count_le (settings : List Setting) (snaps : List Snapshot)
    (v : Volume) (sid : String) (freq : Nat)
    (hmem : (sid, freq) ∈ v.snapshot_settings) (setting : Setting)
    (hfind : settings.find? (·.id == sid) = some setting)
    (htype : setting.type = "snapshot") :
    (snapshots_for_setting (cleanup_volume settings snaps v).1 sid).length ≤
      setting.max_snapshots.getD 10 := by
  unfold cleanup_volume
  exact cleanup_settings_fold_count_le settings v.snapshot_count sid setting hfind htype
    (v.snapshot_settings.map Prod.fst)
    (by exact List.mem_map_of_mem Prod.fst hmem) (snaps, v)

/-- The volume fold establishes and preserves the per-setting bound for
every (volume, referenced snapshot setting) pair. -/
theorem cleanup_fold_count_le (settings : List Setting) (sid : String)
    (setting : Setting)
    (hfind : settings.find? (·.id == sid) = some setting)
    (htype : setting.type = "snapshot") :
    ∀ vols : List Volume, ∀ v ∈ vols, ∀ freq : Nat,
    (sid, freq) ∈ v.snapshot_settings →
    ∀ acc : List Snapshot × List Volume,
    (snapshots_for_setting ((vols.foldl (cleanup_fold_step settings) acc).1) sid).length ≤
      setting.max_snapshots.getD 10 := by
  intro vols
  induction vols with
  | nil => intro v hv; cases hv
  | cons a l ih =>
    intro v hv freq hmem acc
    rw [List.foldl_cons]
    by_cases hvl : v ∈ l
    · exact ih v hvl freq hmem _
    · have hva : v = a := by
        rcases List.mem_cons.mp hv with h | h
        · exact h
        · exact absurd h hvl
      subst hva
      have hstep : (snapshots_for_setting ((cleanup_fold_step settings acc v).1) sid).length ≤
          setting.max_snapshots.getD 10 :=
        cleanup_volume_count_le settings acc.1 v sid freq hmem setting hfind htype
      have hsub := cleanup_fold_fst_sublist settings l (cleanup_fold_step settings acc v)
      exact le_trans (hsub.filter _).length_le hstep

/-- C3 (amended): the Housekeeper selects snapshots by `setting_id` alone
(not by the (volume, setting) pair), and whenever the per-setting count
exceeds the setting's `max_snapshots` (default 10) it deletes the excess
oldest by `created_at`; consequently, after a sweep, for every volume and
every snapshot-type setting it references, at most `max_snapshots`
snapshots with that setting id remain — in particular every
(volume, snapshot-setting) pair retains at most `max_snapshots`
snapshots. -/
theorem cleanup_retention_bound (settings : List Setting) (volumes : List Volume)
    (snaps : List Snapshot) (v : Volume) (hv : v ∈ volumes) (sid : String)
    (freq : Nat) (hmem : (sid, freq) ∈ v.snapshot_settings) (setting : Setting)
    (hfind : settings.find? (·.id == sid) = some setting)
    (htype : setting.type = "snapshot") :
    (snapshots_for_setting (cleanup settings volumes snaps).1 sid).length ≤
      setting.max_snapshots.getD 10 := by
  unfold cleanup
  exact cleanup_fold_count_le settings sid setting hfind htype volumes v hv freq hmem
    (snaps, [])

/-- C3 counterexample: two volumes `v1`, `v2` share snapshot setting `s`
with `max_snapshots = 2`; each (volume, setting) pair holds exactly 2
snapshots, so under the claim nothing would be trimmed, yet the sweep
deletes the two oldest (both belonging to `v1`) because it counts the 4
snapshots matching the setting id across all volumes. -/
theorem cleanup_not_per_pair :
    (([{ id := "v1", name := "v1", system_id := "S", size := 1,
         snapshot_settings := [("s", 5)] },
       { id := "v2", name := "v2", system_id := "S", size := 1,
         snapshot_settings := [("s", 5)] }] : List Volume).all (fun v =>
      v.snapshot_settings.all (fun p =>
        (([⟨"a", "v1", "s", 1, 5, 1⟩, ⟨"b", "v1", "s", 2, 5, 1⟩,
           ⟨"c", "v2", "s", 3, 5, 1⟩, ⟨"d", "v2", "s", 4, 5, 1⟩] : List Snapshot).filter
            (fun s => s.volume_id == v.id && s.snapshot_setting_id == p.1)).length ≤ 2))) =
      true ∧
    (cleanup
        [{ id := "s", system_id := "S", name := "snap", type := "snapshot",
           value := some 5, max_snapshots := some 2 }]
        [{ id := "v1", name := "v1", system_id := "S", size := 1,
           snapshot_settings := [("s", 5)] },
         { id := "v2", name := "v2", system_id := "S", size := 1,
           snapshot_settings := [("s", 5)] }]
        [⟨"a", "v1", "s", 1, 5, 1⟩, ⟨"b", "v1", "s", 2, 5, 1⟩,
         ⟨"c", "v2", "s", 3, 5, 1⟩, ⟨"d", "v2", "s", 4, 5, 1⟩]).1 =
      [⟨"c", "v2", "s", 3, 5, 1⟩, ⟨"d", "v2", "s", 4, 5, 1⟩] ∧
    (4 : Nat) ≠ 2 := by
  exact ⟨by decide, by decide, by decide⟩

/-- Witness for C3 (amended) at the counterexample state: after the sweep,
setting `s` retains exactly its `max_snapshots = 2` snapshots. -/
theorem cleanup_retention_bound_witness :
    (({ id := "v1", name := "v1", system_id := "S", size := 1,
        snapshot_settings := [("s", 5)] } : Volume) ∈
      ([{ id := "v1", name := "v1", system_id := "S", size := 1,
          snapshot_settings := [("s", 5)] },
        { id := "v2", name := "v2", system_id := "S", size := 1,
          snapshot_settings := [("s", 5)] }] : List Volume)) ∧
    (("s", 5) ∈
      ({ id := "v1", name := "v1", system_id := "S", size := 1,
         snapshot_settings := [("s", 5)] } : Volume).snapshot_settings) ∧
    (([{ id := "s", system_id := "S", name := "snap", type := "snapshot",
         value := some 5, max_snapshots := some 2 }] : List Setting).find?
        (·.id == "s") =
      some { id := "s", system_id := "S", name := "snap", type := "snapshot",
             value := some 5, max_snapshots := some 2 }) ∧
    ({ id := "s", system_id := "S", name := "snap", type := "snapshot",
       value := some 5, max_snapshots := some 2 } : Setting).type = "snapshot" ∧
    (snapshots_for_setting
        (cleanup
          [{ id := "s", system_id := "S", name := "snap", type := "snapshot",
             value := some 5, max_snapshots := some 2 }]
          [{ id := "v1", name := "v1", system_id := "S", size := 1,
             snapshot_settings := [("s", 5)] },
           { id := "v2", name := "v2", system_id := "S", size := 1,
             snapshot_settings := [("s", 5)] }]
          [⟨"a", "v1", "s", 1, 5, 1⟩, ⟨"b", "v1", "s", 2, 5, 1⟩,
           ⟨"c", "v2", "s", 3, 5, 1⟩, ⟨"d", "v2", "s", 4, 5, 1⟩]).1 "s").length ≤
      ({ id := "s", system_id := "S", name := "snap", type := "snapshot",
         value := some 5, max_snapshots := some 2 } : Setting).max_snapshots.getD 10 :=
  ⟨by decide, by decide, by decide, rfl,
    cleanup_retention_bound
      [{ id := "s", system_id := "S", name := "snap", type := "snapshot",
         value := some 5, max_snapshots := some 2 }]
      [{ id := "v1", name := "v1", system_id := "S", size := 1,
         snapshot_settings := [("s", 5)] },
       { id := "v2", name := "v2", system_id := "S", size := 1,
         snapshot_settings := [("s", 5)] }]
      [⟨"a", "v1", "s", 1, 5, 1⟩, ⟨"b", "v1", "s", 2, 5, 1⟩,
       ⟨"c", "v2", "s", 3, 5, 1⟩, ⟨"d", "v2", "s", 4, 5, 1⟩]
      { id := "v1", name := "v1", system_id := "S", size := 1,
        snapshot_settings := [("s", 5)] }
      (by decide) "s" 5 (by decide)
      { id := "s", system_id := "S", name := "snap", type := "snapshot",
        value := some 5, max_snapshots := some 2 }
      (by decide) rfl⟩

/-! ## C6: no duplicate replication entries -/

/-- A successful `applySetting` found the setting. -/
theorem applySetting_ok_find (settings : List Setting) (v v1 : Volume)
    (sid : String) (h : applySetting settings v sid = .ok v1) :
    ∃ setting, settings.find? (·.id == sid) = some setting := by
  unfold applySetting at h
  split at h
  · exact Except.noConfusion h
  · rename_i setting heq
    exact ⟨setting, heq⟩

/-- A failed `applySetting` reports 400 or 500, never 200. -/
theorem applySetting_error_code (settings : List Setting) (v : Volume)
    (sid : String) (c : Nat) (h : applySetting settings v sid = .error c) :
    c = 400 ∨ c = 500 := by
  unfold applySetting at h
  repeat' split at h
  all_goals first
    | exact Except.noConfusion h
    | (injection h with h; subst h; simp)

/-- `applySetting` only appends: existing snapshot-settings keys and
replication setting ids survive. -/
theorem applySetting_mono (settings : List Setting) (v v1 : Volume)
    (sid : String) (h : applySetting settings v sid = .ok v1) (k : String) :
    (v.snapshot_settings.any (·.1 == k) = true →
      v1.snapshot_settings.any (·.1 == k) = true) ∧
    (v.replication_settings.any (·.setting_id == k) = true →
      v1.replication_settings.any (·.setting_id == k) = true) := by
  unfold applySetting at h
  repeat' split at h
  all_goals first
    | exact Except.noConfusion h
    | (injection h with h; subst h;
       exact ⟨fun hk => by simp_all, fun hk => by simp_all⟩)

/-- After a successful `applySetting` for `sid`, the corresponding
reference is present on the volume. -/
theorem applySetting_post (settings : List Setting) (v v1 : Volume)
    (sid : String) (setting : Setting)
    (hfind : settings.find? (·.id == sid) = some setting)
    (h : applySetting settings v sid = .ok v1) :
    (setting.type = "snapshot" → v1.snapshot_settings.any (·.1 == sid) = true) ∧
    (setting.type = "replication" →
      v1.replication_settings.any (·.setting_id == sid) = true) := by
  unfold applySetting at h
  rw [hfind] at h
  repeat' split at h
  all_goals first
    | exact Except.noConfusion h
    | (injection h with h; subst h; constructor <;> intro hty <;> simp_all)

/-- `applySetting` is a no-op when the reference is already present. -/
theorem applySetting_noop (settings : List Setting) (v : Volume)
    (sid : String) (setting : Setting)
    (hfind : settings.find? (·.id == sid) = some setting)
    (h1 : setting.type = "snapshot" → v.snapshot_settings.any (·.1 == sid) = true)
    (h2 : setting.type = "replication" →
      v.replication_settings.any (·.setting_id == sid) = true) :
    applySetting settings v sid = .ok v := by
  unfold applySetting
  rw [hfind]
  by_cases hsnap : setting.type = "snapshot"
  · simp [hsnap, h1 hsnap]
  · by_cases hrep : setting.type = "replication"
    · simp [hrep, hsnap, h2 hrep]
    · simp [hsnap, hrep]

/-- A successful `applySetting` either leaves the volume unchanged or
appends one reference for `sid` to exactly one of the two containers (and
only when that reference was absent). -/
theorem applySetting_cases (settings : List Setting) (v v1 : Volume)
    (sid : String) (h : applySetting settings v sid = .ok v1) :
    (v1.snapshot_settings = v.snapshot_settings ∨
      ∃ value, v.snapshot_settings.any (·.1 == sid) = false ∧
        v1.snapshot_settings = v.snapshot_settings ++ [(sid, value)]) ∧
    (v1.replication_settings = v.replication_settings ∨
      ∃ e, e.setting_id = sid ∧
        v.replication_settings.any (·.setting_id == sid) = false ∧
        v1.replication_settings = v.replication_settings ++ [e]) := by
  unfold applySetting at h
  repeat' split at h
  all_goals first
    | exact Except.noConfusion h
    | (injection h with h; subst h; first
        | exact ⟨Or.inl rfl, Or.inl rfl⟩
        | exact ⟨Or.inr ⟨_, by simp only [Bool.not_eq_true] at *; assumption, rfl⟩,
                 Or.inl rfl⟩
        | exact ⟨Or.inl rfl,
                 Or.inr ⟨_, rfl, by simp only [Bool.not_eq_true] at *; assumption, rfl⟩⟩)

/-- `applySetting` keeps every reference inside `S` when `sid ∈ S` and the
volume's references already lie in `S`. -/
theorem applySetting_refs (settings : List Setting) (v v1 : Volume)
    (sid : String) (S : List String) (hsid : sid ∈ S)
    (h : applySetting settings v sid = .ok v1)
    (hsnap : ∀ p ∈ v.snapshot_settings, p.1 ∈ S)
    (hrep : ∀ r ∈ v.replication_settings, r.setting_id ∈ S) :
    (∀ p ∈ v1.snapshot_settings, p.1 ∈ S) ∧
    (∀ r ∈ v1.replication_settings, r.setting_id ∈ S) := by
  obtain ⟨hs, hr⟩ := applySetting_cases settings v v1 sid h
  constructor
  · intro p hp
    rcases hs with hs | ⟨value, _, hs⟩
    · exact hsnap p (hs ▸ hp)
    · rw [hs] at hp
      rcases List.mem_append.mp hp with h1 | h1
      · exact hsnap p h1
      · have : p = (sid, value) := by simpa using h1
        rw [this]
        exact hsid
  · intro r hrm
    rcases hr with hr | ⟨e, he, _, hr⟩
    · exact hrep r (hr ▸ hrm)
    · rw [hr] at hrm
      rcases List.mem_append.mp hrm with h1 | h1
      · exact hrep r h1
      · have : r = e := by simpa using h1
        rw [this, he]
        exact hsid

/-- `applySetting` preserves uniqueness of replication setting ids. -/
theorem applySetting_nodup (settings : List Setting) (v v1 : Volume)
    (sid : String) (h : applySetting settings v sid = .ok v1)
    (hn : (v.replication_settings.map (·.setting_id)).Nodup) :
    (v1.replication_settings.map (·.setting_id)).Nodup := by
  obtain ⟨-, hr⟩ := applySetting_cases settings v v1 sid h
  rcases hr with hr | ⟨e, he, habs, hr⟩
  · exact hr ▸ hn
  · rw [hr, List.map_append]
    have hnot : sid ∉ v.replication_settings.map (·.setting_id) := by
      intro hmemb
      rcases List.mem_map.mp hmemb with ⟨r, hrm, hrid⟩
      have : v.replication_settings.any (·.setting_id == sid) = true :=
        List.any_eq_true.mpr ⟨r, hrm, by simp [hrid]⟩
      rw [habs] at this
      exact Bool.noConfusion this
    simp [List.nodup_append, hn, he, hnot]

/-- The whole apply loop reports 400 or 500 when it fails, never 200. -/
theorem applySettings_error_code (settings : List Setting) :
    ∀ (ids : List String) (v : Volume) (c : Nat),
    applySettings settings v ids = .error c → c = 400 ∨ c = 500 := by
  intro ids
  induction ids with
  | nil => intro v c h; exact Except.noConfusion h
  | cons a l ih =>
    intro v c h
    unfold applySettings at h
    rcases ha : applySetting settings v a with c2 | v2 <;> rw [ha] at h
    · injection h with h
      subst h
      exact applySetting_error_code settings v a _ ha
    · exact ih v2 c h

/-- The apply loop only appends references. -/
theorem applySettings_mono (settings : List Setting) :
    ∀ (ids : List String) (v v1 : Volume),
    applySettings settings v ids = .ok v1 → ∀ k : String,
    (v.snapshot_settings.any (·.1 == k) = true →
      v1.snapshot_settings.any (·.1 == k) = true) ∧
    (v.replication_settings.any (·.setting_id == k) = true →
      v1.replication_settings.any (·.setting_id == k) = true) := by
  intro ids
  induction ids with
  | nil =>
    intro v v1 h k
    injection h with h
    subst h
    exact ⟨id, id⟩
  | cons a l ih =>
    intro v v1 h k
    unfold applySettings at h
    rcases ha : applySetting settings v a with c | v2 <;> rw [ha] at h
    · exact Except.noConfusion h
    · obtain ⟨m1, m2⟩ := applySetting_mono settings v v2 a ha k
      obtain ⟨n1, n2⟩ := ih v2 v1 h k
      exact ⟨fun hk => n1 (m1 hk), fun hk => n2 (m2 hk)⟩

/-- After a successful apply loop, every processed setting id is present on
the volume according to its setting's type. -/
theorem applySettings_post (settings : List Setting) :
    ∀ (ids : List String) (v v1 : Volume),
    applySettings settings v ids = .ok v1 →
    ∀ sid ∈ ids, ∃ setting,
      settings.find? (·.id == sid) = some setting ∧
      (setting.type = "snapshot" → v1.snapshot_settings.any (·.1 == sid) = true) ∧
      (setting.type = "replication" →
        v1.replication_settings.any (·.setting_id == sid) = true) := by
  intro ids
  induction ids with
  | nil => intro v v1 h sid hmem; cases hmem
  | cons a l ih =>
    intro v v1 h sid hmem
    unfold applySettings at h
    rcases ha : applySetting settings v a with c | v2 <;> rw [ha] at h
    · exact Except.noConfusion h
    · rcases List.mem_cons.mp hmem with rfl | hl
      · obtain ⟨setting, hfind⟩ := applySetting_ok_find settings v v2 sid ha
        obtain ⟨p1, p2⟩ := applySetting_post settings v v2 sid setting hfind ha
        obtain ⟨m1, m2⟩ := applySettings_mono settings l v2 v1 h sid
        exact ⟨setting, hfind, fun ht => m1 (p1 ht), fun ht => m2 (p2 ht)⟩
      · exact ih v2 v1 h sid hl

/-- When every processed setting id is already present, the apply loop
changes nothing. -/
theorem applySettings_noop (settings : List Setting) :
    ∀ (ids : List String) (v : Volume),
    (∀ sid ∈ ids, ∃ setting,
      settings.find? (·.id == sid) = some setting ∧
      (setting.type = "snapshot" → v.snapshot_settings.any (·.1 == sid) = true) ∧
      (setting.type = "replication" →
        v.replication_settings.any (·.setting_id == sid) = true)) →
    applySettings settings v ids = .ok v := by
  intro ids
  induction ids with
  | nil => intro v _; rfl
  | cons a l ih =>
    intro v h
    obtain ⟨setting, hfind, h1, h2⟩ := h a (List.mem_cons_self a l)
    have ha := applySetting_noop settings v a setting hfind h1 h2
    unfold applySettings
    rw [ha]
    exact ih v (fun sid hs => h sid (List.mem_cons_of_mem a hs))

/-- The apply loop keeps all references inside `S` when the processed ids
lie in `S`. -/
theorem applySettings_refs (settings : List Setting) :
    ∀ (ids S : List String), (∀ x ∈ ids, x ∈ S) →
    ∀ v v1 : Volume, applySettings settings v ids = .ok v1 →
    (∀ p ∈ v.snapshot_settings, p.1 ∈ S) →
    (∀ r ∈ v.replication_settings, r.setting_id ∈ S) →
    (∀ p ∈ v1.snapshot_settings, p.1 ∈ S) ∧
    (∀ r ∈ v1.replication_settings, r.setting_id ∈ S) := by
  intro ids
  induction ids with
  | nil =>
    intro S _ v v1 h hs hr
    injection h with h
    subst h
    exact ⟨hs, hr⟩
  | cons a l ih =>
    intro S hsub v v1 h hs hr
    unfold applySettings at h
    rcases ha : applySetting settings v a with c | v2 <;> rw [ha] at h
    · exact Except.noConfusion h
    · obtain ⟨hs2, hr2⟩ := applySetting_refs settings v v2 a S
        (hsub a (List.mem_cons_self a l)) ha hs hr
      exact ih S (fun x hx => hsub x (List.mem_cons_of_mem a hx)) v2 v1 h hs2 hr2

/-- The apply loop preserves uniqueness of replication setting ids. -/
theorem applySettings_nodup (settings : List Setting) :
    ∀ (ids : List String) (v v1 : Volume),
    applySettings settings v ids = .ok v1 →
    (v.replication_settings.map (·.setting_id)).Nodup →
    (v1.replication_settings.map (·.setting_id)).Nodup := by
  intro ids
  induction ids with
  | nil =>
    intro v v1 h hn
    injection h with h
    subst h
    exact hn
  | cons a l ih =>
    intro v v1 h hn
    unfold applySettings at h
    rcases ha : applySetting settings v a with c | v2 <;> rw [ha] at h
    · exact Except.noConfusion h
    · exact ih v2 v1 h (applySetting_nodup settings v v2 a ha hn)

/-- After the removal phase every remaining reference is in the incoming
id list. -/
theorem removeOldSettings_refs (v : Volume) (ids : List String) :
    (∀ p ∈ (removeOldSettings v ids).snapshot_settings, p.1 ∈ ids) ∧
    (∀ r ∈ (removeOldSettings v ids).replication_settings, r.setting_id ∈ ids) := by
  constructor <;> intro x hx <;>
    (unfold removeOldSettings at hx; simp only [List.mem_filter] at hx; simpa using hx.2)

/-- The removal phase is the identity when every reference is already in
the incoming id list. -/
theorem removeOldSettings_eq_self (v : Volume) (ids : List String)
    (hs : ∀ p ∈ v.snapshot_settings, p.1 ∈ ids)
    (hr : ∀ r ∈ v.replication_settings, r.setting_id ∈ ids) :
    removeOldSettings v ids = v := by
  unfold removeOldSettings
  have h1 : v.snapshot_settings.filter (fun p => ids.contains p.1) =
      v.snapshot_settings :=
    List.filter_eq_self.mpr (fun p hp => by simpa using hs p hp)
  have h2 : v.replication_settings.filter (fun r => ids.contains r.setting_id) =
      v.replication_settings :=
    List.filter_eq_self.mpr (fun r hrm => by simpa using hr r hrm)
  rw [h1, h2]

/-- The removal phase preserves uniqueness of replication setting ids. -/
theorem removeOldSettings_nodup (v : Volume) (ids : List String)
    (hn : (v.replication_settings.map (·.setting_id)).Nodup) :
    ((removeOldSettings v ids).replication_settings.map (·.setting_id)).Nodup :=
  ((List.filter_sublist _).map _).nodup hn

/-- C6 (amended): `update_volume` deduplicates by `setting_id`, not by
target system id: a second application of the same setting list to the
resulting volume succeeds with HTTP 200 and changes nothing (in particular
the setting's single replication entry stays single), and
`replication_settings` keeps at most one entry per `setting_id` — while
two distinct settings with the same target system id yield two entries
(see the counterexample). -/
theorem update_volume_idempotent (settings : List Setting) (volume : Volume)
    (setting_ids : List String) (freqs : List Nat) (v1 : Volume)
    (hnodup : (volume.replication_settings.map (·.setting_id)).Nodup)
    (h : update_volume settings volume setting_ids freqs = (200, v1)) :
    update_volume settings v1 setting_ids freqs = (200, v1) ∧
    (v1.replication_settings.map (·.setting_id)).Nodup := by
  unfold update_volume at h
  by_cases hg : setting_ids.any (fun sid => !(settings.map (·.id)).contains sid) = true
  · rw [if_pos hg] at h
    exact absurd (congrArg Prod.fst h) (by simp)
  · rw [if_neg hg] at h
    rcases happ : applySettings settings (removeOldSettings volume setting_ids)
        setting_ids with c | v2 <;> rw [happ] at h
    · have hc : c = 200 := (Prod.ext_iff.mp h).1
      rcases applySettings_error_code settings setting_ids _ c happ with h4 | h5 <;> omega
    · have hv1 : ({ v2 with snapshot_frequencies := freqs } : Volume) = v1 :=
        (Prod.ext_iff.mp h).2
      obtain ⟨hs0, hr0⟩ := removeOldSettings_refs volume setting_ids
      obtain ⟨hs2, hr2⟩ := applySettings_refs settings setting_ids setting_ids
        (fun x hx => hx) _ v2 happ hs0 hr0
      have hpost := applySettings_post settings setting_ids _ v2 happ
      have hnod2 : (v2.replication_settings.map (·.setting_id)).Nodup :=
        applySettings_nodup settings setting_ids _ v2 happ
          (removeOldSettings_nodup volume setting_ids hnodup)
      subst hv1
      constructor
      · unfold update_volume
        rw [if_neg hg]
        have hrm : removeOldSettings { v2 with snapshot_frequencies := freqs }
            setting_ids = { v2 with snapshot_frequencies := freqs } :=
          removeOldSettings_eq_self _ setting_ids hs2 hr2
        rw [hrm]
        have hnoop : applySettings settings
            ({ v2 with snapshot_frequencies := freqs } : Volume) setting_ids =
            .ok { v2 with snapshot_frequencies := freqs } :=
          applySettings_noop settings setting_ids _ (fun sid hs => by
            obtain ⟨setting, hfind, p1, p2⟩ := hpost sid hs
            exact ⟨setting, hfind, p1, p2⟩)
        rw [hnoop]
      · exact hnod2

/-- C6 counterexample: applying the same replication setting `r1` twice
leaves exactly one entry but the second application returns 200, not the
400 the claim requires; moreover two distinct settings `r1`, `r2` with the
same target system id "T" both land in `replication_settings`, so the
at-most-one-entry-per-target-id invariant is also false. -/
theorem update_volume_duplicate_counterexample :
    (update_volume
        [{ id := "r1", system_id := "S", name := "rep", type := "replication",
           replication_type := some "asynchronous", delay_sec := some 5,
           replication_target := some ⟨"T", "5001"⟩ }]
        { id := "v", name := "v", system_id := "S", size := 1 }
        ["r1"] [60]).1 = 200 ∧
    (update_volume
        [{ id := "r1", system_id := "S", name := "rep", type := "replication",
           replication_type := some "asynchronous", delay_sec := some 5,
           replication_target := some ⟨"T", "5001"⟩ }]
        (update_volume
          [{ id := "r1", system_id := "S", name := "rep", type := "replication",
             replication_type := some "asynchronous", delay_sec := some 5,
             replication_target := some ⟨"T", "5001"⟩ }]
          { id := "v", name := "v", system_id := "S", size := 1 }
          ["r1"] [60]).2
        ["r1"] [60]).1 = 200 ∧
    ((200 : Nat) ≠ 400) ∧
    (update_volume
        [{ id := "r1", system_id := "S", name := "rep", type := "replication",
           replication_type := some "asynchronous", delay_sec := some 5,
           replication_target := some ⟨"T", "5001"⟩ }]
        (update_volume
          [{ id := "r1", system_id := "S", name := "rep", type := "replication",
             replication_type := some "asynchronous", delay_sec := some 5,
             replication_target := some ⟨"T", "5001"⟩ }]
          { id := "v", name := "v", system_id := "S", size := 1 }
          ["r1"] [60]).2
        ["r1"] [60]).2.replication_settings.length = 1 ∧
    ((update_volume
        [{ id := "r1", system_id := "S", name := "rep1", type := "replication",
           replication_type := some "asynchronous", delay_sec := some 5,
           replication_target := some ⟨"T", "5001"⟩ },
         { id := "r2", system_id := "S", name := "rep2", type := "replication",
           replication_type := some "synchronous", delay_sec := some 0,
           replication_target := some ⟨"T", "5001"⟩ }]
        { id := "v", name := "v", system_id := "S", size := 1 }
        ["r1", "r2"] [60]).2.replication_settings.map
          (fun r => r.replication_target.id)) = ["T", "T"] := by
  exact ⟨by decide, by decide, by decide, by decide, by decide⟩

/-- Witness for C6 (amended): applying the asynchronous replication setting
`r1` to a fresh volume once gives one entry, and the second application is
a 200 no-op. -/
theorem update_volume_idempotent_witness :
    (({ id := "v", name := "v", system_id := "S", size := 1 } :
        Volume).replication_settings.map (·.setting_id)).Nodup ∧
    update_volume
        [{ id := "r1", system_id := "S", name := "rep", type := "replication",
           replication_type := some "asynchronous", delay_sec := some 5,
           replication_target := some ⟨"T", "5001"⟩ }]
        { id := "v", name := "v", system_id := "S", size := 1 }
        ["r1"] [60] =
      (200, { id := "v", name := "v", system_id := "S", size := 1,
              snapshot_frequencies := [60],
              replication_settings :=
                [{ setting_id := "r1", replication_type := "asynchronous",
                   delay_sec := 5, replication_target := ⟨"T", "5001"⟩ }] }) ∧
    (update_volume
        [{ id := "r1", system_id := "S", name := "rep", type := "replication",
           replication_type := some "asynchronous", delay_sec := some 5,
           replication_target := some ⟨"T", "5001"⟩ }]
        { id := "v", name := "v", system_id := "S", size := 1,
          snapshot_frequencies := [60],
          replication_settings :=
            [{ setting_id := "r1", replication_type := "asynchronous",
               delay_sec := 5, replication_target := ⟨"T", "5001"⟩ }] }
        ["r1"] [60] =
      (200, { id := "v", name := "v", system_id := "S", size := 1,
              snapshot_frequencies := [60],
              replication_settings :=
                [{ setting_id := "r1", replication_type := "asynchronous",
                   delay_sec := 5, replication_target := ⟨"T", "5001"⟩ }] }) ∧
     (({ id := "v", name := "v", system_id := "S", size := 1,
         snapshot_frequencies := [60],
         replication_settings :=
           [{ setting_id := "r1", replication_type := "asynchronous",
              delay_sec := 5, replication_target := ⟨"T", "5001"⟩ }] } :
        Volume).replication_settings.map (·.setting_id)).Nodup) :=
  ⟨by decide, by decide,
    update_volume_idempotent
      [{ id := "r1", system_id := "S", name := "rep", type := "replication",
         replication_type := some "asynchronous", delay_sec := some 5,
         replication_target := some ⟨"T", "5001"⟩ }]
      { id := "v", name := "v", system_id := "S", size := 1 }
      ["r1"] [60]
      { id := "v", name := "v", system_id := "S", size := 1,
        snapshot_frequencies := [60],
        replication_settings :=
          [{ setting_id := "r1", replication_type := "asynchronous",
             delay_sec := 5, replication_target := ⟨"T", "5001"⟩ }] }
      (by decide) (by decide)⟩

end DiagnoSys
